import Mathlib

/-!
Shallow embedding of the kumuluzee-go-discovery `discovery` package
(`consul_discovery.go` and the etcd discovery source) together with proofs
about its registration/heartbeat loop, singleton check, discovery pipeline,
gateway-watch cache and deregistration behaviour.

Machine integers from the Go source (`int64` retry delays) are modelled as
`Int` with explicit two's-complement wrap where overflow could matter.
Fallible or panicking Go code is modelled with `Except`/`Option`.
-/

deriving instance DecidableEq for Except

namespace KumuluzDiscovery

/-! ## Semantic versions (github.com/blang/semver, `ParseTolerant`)

The blang/semver dependency is external to the repository; only the behaviour
the discovery code relies on is modelled: parsing a dotted numeric version
(tolerating a leading `v` and 1-3 numeric components) and comparing versions.
-/

structure SemVer where
  major : Nat
  minor : Nat
  patch : Nat
deriving DecidableEq, Repr

/-- Lexicographic order on semantic versions (pre-release tags are not used
by the discovery code, which only stores `major.minor.patch`). -/
def semverLe (a b : SemVer) : Bool :=
  a.major < b.major ||
    (a.major == b.major &&
      (a.minor < b.minor || (a.minor == b.minor && a.patch ≤ b.patch)))

/-- Split a character list on a separator character (the behaviour of Go
`strings.Split` for a one-character separator, on the string's runes). -/
def splitOnChar (sep : Char) : List Char → List (List Char)
  | [] => [[]]
  | c :: rest =>
    let r := splitOnChar sep rest
    if c == sep then
      [] :: r
    else
      match r with
      | [] => [[c]]
      | g :: gs => (c :: g) :: gs

def digitsToNatAux : List Char → Nat → Option Nat
  | [], acc => some acc
  | c :: rest, acc =>
    if c.isDigit then digitsToNatAux rest (acc * 10 + (c.toNat - 48)) else none

/-- A nonempty all-digit character list parsed as a `Nat`. -/
def digitsToNat : List Char → Option Nat
  | [] => none
  | c :: rest => digitsToNatAux (c :: rest) 0

/-- The behaviour of `semver.ParseTolerant` restricted to what the
discovery code feeds it:
a dotted numeric version, optionally prefixed with `v`, with 1 to 3
components; missing minor/patch components default to 0. Anything else
fails to parse. -/
def parseTolerantChars (cs0 : List Char) : Option SemVer :=
  let cs := match cs0 with
    | 'v' :: rest => rest
    | other => other
  match (splitOnChar '.' cs).mapM digitsToNat with
  | some [a] => some ⟨a, 0, 0⟩
  | some [a, b] => some ⟨a, b, 0⟩
  | some [a, b, c] => some ⟨a, b, c⟩
  | _ => none

def parseTolerant (s : String) : Option SemVer :=
  parseTolerantChars s.data

def semverString (v : SemVer) : String :=
  toString v.major ++ "." ++ toString v.minor ++ "." ++ toString v.patch

/-! ## Retry delay arithmetic (`run`, both variants)

`retryDelay` is a Go `int64`; `retryDelay * 2` wraps in two's complement. -/

/-- Two's-complement wrap of an integer to the `int64` range. -/
def int64wrap (x : Int) : Int :=
  (x + 2 ^ 63) % 2 ^ 64 - 2 ^ 63

/-- The doubling-and-clamping of the retry delay from `run` (identical in
the consul and etcd variants): `newRetryDelay := retryDelay * 2`, capped at
`maxRetryDelay` when it exceeds it. -/
def nextRetryDelay (maxRetryDelay retryDelay : Int) : Int :=
  let newRetryDelay := int64wrap (retryDelay * 2)
  if newRetryDelay > maxRetryDelay then maxRetryDelay else newRetryDelay

/-- The delay slept at the k-th consecutive failed attempt (0-indexed) after
the loop was last (re)started with `startRetryDelay`. -/
def failDelays (startRetryDelay maxRetryDelay : Int) : Nat → Int
  | 0 => startRetryDelay
  | k + 1 => nextRetryDelay maxRetryDelay (failDelays startRetryDelay maxRetryDelay k)

/-! ## The registration/heartbeat loop (`run`, both variants)

`run(retryDelay)` performs one attempt (register when not yet registered,
TTL update otherwise), sleeps, and recursively calls itself. One invocation
is modelled as a step function from the loop's observable state (the
`isRegistered` flag on the service instance plus the `retryDelay` argument)
and the attempt's outcome to the sleeps performed and the next scheduled
`run` call. The backend outcome of the attempt is the `ok` input. -/

structure RunConfig where
  startRetryDelay : Int
  maxRetryDelay : Int
  pingIntervalSec : Int
deriving DecidableEq, Repr

structure LoopState where
  isRegistered : Bool
  retryDelay : Int
deriving DecidableEq, Repr

inductive AttemptKind
  | register
  | ttlUpdate
deriving DecidableEq, Repr

structure RunStepResult where
  /-- the operation this iteration performed -/
  attempt : AttemptKind
  /-- backoff sleep (ms) performed before rescheduling, on failure -/
  sleepRetryMs : Option Int
  /-- whether a full ping interval is waited before rescheduling -/
  sleepPing : Bool
  /-- the `run` call scheduled next (`none` would mean the loop ends) -/
  next : Option LoopState
deriving DecidableEq, Repr

/-- One iteration of `consulDiscoverySource.run`. In the register branch the
flag becomes true iff the attempt succeeded, and in the ttlUpdate branch it
is set to false iff the attempt failed, so the updated flag equals `ok` in
both branches. `firstTTL` is set only when this very iteration registered,
and the success path sleeps the ping interval only when `firstTTL` is false
(the immediate first TTL update after registration). -/
def consulRunStep (cfg : RunConfig) (s : LoopState) (ok : Bool) : RunStepResult :=
  let attempt := if !s.isRegistered then AttemptKind.register else AttemptKind.ttlUpdate
  let firstTTL := !s.isRegistered && ok
  let isRegistered1 := ok
  if !ok then
    { attempt := attempt
      sleepRetryMs := some s.retryDelay
      sleepPing := false
      next := some { isRegistered := isRegistered1,
                     retryDelay := nextRetryDelay cfg.maxRetryDelay s.retryDelay } }
  else
    { attempt := attempt
      sleepRetryMs := none
      sleepPing := !firstTTL
      next := some { isRegistered := isRegistered1, retryDelay := cfg.startRetryDelay } }

/-- One iteration of `etcdDiscoverySource.run`. Identical to the consul
variant except that the success path always sleeps the ping interval: there
is no `firstTTL` shortcut. -/
def etcdRunStep (cfg : RunConfig) (s : LoopState) (ok : Bool) : RunStepResult :=
  let attempt := if !s.isRegistered then AttemptKind.register else AttemptKind.ttlUpdate
  let isRegistered1 := ok
  if !ok then
    { attempt := attempt
      sleepRetryMs := some s.retryDelay
      sleepPing := false
      next := some { isRegistered := isRegistered1,
                     retryDelay := nextRetryDelay cfg.maxRetryDelay s.retryDelay } }
  else
    { attempt := attempt
      sleepRetryMs := none
      sleepPing := true
      next := some { isRegistered := isRegistered1, retryDelay := cfg.startRetryDelay } }

/-! ## Service instances, handles, RegisterService, DeregisterService

A discovery source struct is modelled as a handle whose `serviceInstance`
pointer is `Option` (`none` is Go's nil pointer; only `RegisterService`
assigns it). Go panics are explicit. -/

inductive GoPanic
  | nilDereference
  | indexOutOfRange
deriving DecidableEq, Repr

structure ConsulServiceInstance where
  isRegistered : Bool
  id : String
  name : String
  versionTag : String
  singleton : Bool
deriving DecidableEq, Repr

structure EtcdServiceInstance where
  isRegistered : Bool
  id : String
  etcdKeyDir : String
  serviceURL : String
  singleton : Bool
deriving DecidableEq, Repr

/-- One gateway-url watch entry (`gatewayURLWatch`). -/
structure gatewayURLWatch where
  gatewayID : String
  gatewayURL : String
deriving DecidableEq, Repr

structure ConsulHandle where
  serviceInstance : Option ConsulServiceInstance
  lastKnownService : String
  gatewayURLs : List gatewayURLWatch
deriving DecidableEq, Repr

structure EtcdHandle where
  serviceInstance : Option EtcdServiceInstance
  lastKnownService : String
  gatewayURLs : List gatewayURLWatch
deriving DecidableEq, Repr

/-- The constructor `newConsulDiscoverySource` never touches `d.serviceInstance`, so the
field keeps Go's zero value for a pointer (nil). -/
def newConsulDiscoverySource : ConsulHandle :=
  { serviceInstance := none, lastKnownService := "", gatewayURLs := [] }

/-- The constructor `newEtcdDiscoverySource` likewise leaves `d.serviceInstance` nil. -/
def newEtcdDiscoverySource : EtcdHandle :=
  { serviceInstance := none, lastKnownService := "", gatewayURLs := [] }

structure RegisterOptions where
  name : String
  environment : String
  version : String
  singleton : Bool
deriving DecidableEq, Repr

/-- The method `consulDiscoverySource.RegisterService`: builds the service instance
(`id = name-uuid4`, `name = env-name`, `versionTag = version=<version>`),
launches `go d.run(d.startRetryDelay)` (the loop is modelled separately by
`consulRunStep`) and immediately returns the id with a nil error. The
generated uuid is an input. -/
def consulRegisterService (h : ConsulHandle) (options : RegisterOptions)
    (uuid4 : String) : (String × Option String) × ConsulHandle :=
  let inst : ConsulServiceInstance :=
    { isRegistered := false
      singleton := options.singleton
      id := options.name ++ "-" ++ uuid4
      name := options.environment ++ "-" ++ options.name
      versionTag := "version=" ++ options.version }
  ((inst.id, none), { h with serviceInstance := some inst })

/-- The method `etcdDiscoverySource.RegisterService`: the id is the bare uuid, the key
directory is `/environments/.../instances/<id>`; returns the id with a nil
error immediately, the loop running detached. -/
def etcdRegisterService (h : EtcdHandle) (options : RegisterOptions)
    (uuid4 : String) : (String × Option String) × EtcdHandle :=
  let inst : EtcdServiceInstance :=
    { isRegistered := false
      singleton := options.singleton
      id := uuid4
      etcdKeyDir := "/environments/" ++ options.environment ++ "/services/" ++
        options.name ++ "/" ++ options.version ++ "/instances/" ++ uuid4
      serviceURL := "" }
  ((uuid4, none), { h with serviceInstance := some inst })

/-- The method `consulDiscoverySource.DeregisterService` reads `d.serviceInstance.id`
unconditionally and passes it to `Agent().ServiceDeregister`; on a handle
whose instance pointer is still nil this dereferences nil. The handle's own
fields are not mutated by the Go method. -/
def consulDeregisterService (h : ConsulHandle) : Except GoPanic String :=
  match h.serviceInstance with
  | none => .error .nilDereference
  | some inst => .ok inst.id

/-- The method `etcdDiscoverySource.DeregisterService` reads `d.serviceInstance.id`
(for the log line) and `d.serviceInstance.etcdKeyDir` (the recursively
deleted key); nil instance pointer means a nil dereference. -/
def etcdDeregisterService (h : EtcdHandle) : Except GoPanic String :=
  match h.serviceInstance with
  | none => .error .nilDereference
  | some inst => .ok inst.etcdKeyDir

/-! ## The consul catalog, health query, singleton check and `register` -/

/-- One consul catalog entry as seen through `Health().Service`:
the service name it is registered under, its unique id, tags, addresses,
port, and whether its health checks pass. -/
structure CatalogEntry where
  serviceName : String
  serviceID : String
  tags : List String
  address : String
  nodeAddress : String
  port : Nat
  passing : Bool
deriving DecidableEq, Repr

/-- The query `Health().Service(name, "", true, nil)`: all passing entries registered
under the given service name. -/
def healthServiceQuery (catalog : List CatalogEntry) (serviceName : String) :
    List CatalogEntry :=
  catalog.filter (fun e => e.serviceName == serviceName && e.passing)

/-- The method `consulDiscoverySource.isServiceRegistered`: the Go code queries
`Health().Service(reg.id, "", true, nil)` — the freshly generated instance
id, not the service name `reg.name` — and reports whether any entry came
back (a query error also yields false). -/
def consulIsServiceRegistered (catalog : List CatalogEntry)
    (inst : ConsulServiceInstance) : Bool :=
  decide (0 < (healthServiceQuery catalog inst.id).length)

/-- The method `consulDiscoverySource.register`: refuse when the singleton check finds
an existing registration, otherwise issue `Agent().ServiceRegister` whose
outcome is abstracted as `backendOk` (the `AgentServiceRegistration` payload
only feeds that call). Returns whether the attempt succeeded. -/
def consulRegister (catalog : List CatalogEntry) (backendOk : Bool)
    (inst : ConsulServiceInstance) : Bool :=
  if consulIsServiceRegistered catalog inst && inst.singleton then false
  else backendOk

/-! ## Discovery: candidate extraction (consul variant) -/

/-- The `*api.AgentService` fields the extraction loop reads. -/
structure AgentService where
  id : String
  tags : List String
  address : String
  port : Nat
deriving DecidableEq, Repr

/-- A `*api.ServiceEntry` as read by the loop: the service plus the owning
node's address (used when the service has no explicit address). -/
structure ServiceEntryM where
  service : AgentService
  nodeAddress : String
deriving DecidableEq, Repr

/-- A parsed candidate instance (`discoveredService`). -/
structure discoveredService where
  id : String
  version : SemVer
  directURL : String
deriving DecidableEq, Repr

/-- The inner tag loop of `DiscoverService` (consul): scan the tags in
order; a tag starting with `version` is split on `=` and its second part
parsed as a semver (a missing second part is Go's index-out-of-range panic;
a parse failure sets `versionOk = false` and breaks out of the loop); the
literal tag `https` switches the protocol. Returns the last parsed version
(or `none` when `versionOk` ended up false) together with the protocol. -/
def consulScanTags (protocol : String) (versionAcc : Option SemVer) :
    List String → Except GoPanic (Option SemVer × String)
  | [] => .ok (versionAcc, protocol)
  | tag :: rest =>
    if "version".data.isPrefixOf tag.data then
      match (splitOnChar '=' tag.data).get? 1 with
      | none => .error .indexOutOfRange
      | some t1 =>
        match parseTolerantChars t1 with
        | none => .ok (none, protocol)
        | some version => consulScanTags protocol (some version) rest
    else if tag == "https" then consulScanTags "https" versionAcc rest
    else consulScanTags protocol versionAcc rest

/-- One loop body of the consul extraction: scan the tags; when no version
was obtained the record is skipped (`continue`); otherwise build the direct
URL from the protocol, the service address (falling back to the node's
address) and the port. -/
def consulParseEntry (serviceEntry : ServiceEntryM) :
    Except GoPanic (Option discoveredService) :=
  match consulScanTags "http" none serviceEntry.service.tags with
  | .error p => .error p
  | .ok (none, _) => .ok none
  | .ok (some version, protocol) =>
    let addr := if serviceEntry.service.address != "" then
        serviceEntry.service.address
      else serviceEntry.nodeAddress
    .ok (some { id := serviceEntry.service.id
                version := version
                directURL := protocol ++ "://" ++ addr ++ ":" ++
                  toString serviceEntry.service.port })

/-! ## The gateway-url watch cache (both variants share these lines) -/

/-- The actions the watch-creation block performs against the configuration
subsystem, recorded for counting: one synchronous `GetString("gatewayUrl")`
read and one `Subscribe("gatewayUrl", ...)` per newly created entry. -/
inductive WatchAction
  | readGatewayURL (ns : String)
  | subscribeGatewayURL (ns : String)
deriving DecidableEq, Repr

/-- The watch namespace built for a discovered instance:
`/environments/<env>/services/<name>/<version>`. -/
def watcherNamespace (environment serviceName : String) (v : SemVer) : String :=
  "/environments/" ++ environment ++ "/services/" ++ serviceName ++ "/" ++
    semverString v

/-- The linear scan of `d.gatewayURLs` for an entry with this id. -/
def hasWatchFor (ws : List gatewayURLWatch) (ns : String) : Bool :=
  ws.any (fun w => w.gatewayID == ns)

/-- The watch-creation block: when no entry with this namespace exists,
read `gatewayUrl` once through the configuration (modelled as the function
`cfg` from namespace to the optional configured value; `GetString`'s value
is `""` when not found), append an entry, and subscribe. When an entry
exists, do nothing. Returns the updated list and the actions performed. -/
def addGatewayWatch (cfg : String → Option String) (ws : List gatewayURLWatch)
    (ns : String) : List gatewayURLWatch × List WatchAction :=
  if hasWatchFor ws ns then (ws, [])
  else
    (ws ++ [{ gatewayID := ns, gatewayURL := (cfg ns).getD "" }],
     [WatchAction.readGatewayURL ns, WatchAction.subscribeGatewayURL ns])

/-- The watch-creation block iterated over a sequence of encountered
namespaces (one per discovered instance, in discovery order). -/
def addGatewayWatchList (cfg : String → Option String)
    (ws : List gatewayURLWatch) : List String → List gatewayURLWatch × List WatchAction
  | [] => (ws, [])
  | ns :: rest =>
    let (ws1, a1) := addGatewayWatch cfg ws ns
    let (ws2, a2) := addGatewayWatchList cfg ws1 rest
    (ws2, a1 ++ a2)

/-- The whole consul extraction loop (lines building `discoveredInstances`),
with the in-loop gateway-watch creation: for each service entry, parse it
(`continue` on an unparseable version), then ensure a watch exists for its
namespace. Returns the candidate list, the updated watch list, and the
watch actions performed. -/
def consulProcessEntries (cfg : String → Option String)
    (environment serviceName : String) :
    List ServiceEntryM → List gatewayURLWatch →
    Except GoPanic (List discoveredService × List gatewayURLWatch × List WatchAction)
  | [], ws => .ok ([], ws, [])
  | serviceEntry :: rest, ws =>
    match consulParseEntry serviceEntry with
    | .error p => .error p
    | .ok none => consulProcessEntries cfg environment serviceName rest ws
    | .ok (some inst) =>
      let (ws1, a1) := addGatewayWatch cfg ws
        (watcherNamespace environment serviceName inst.version)
      match consulProcessEntries cfg environment serviceName rest ws1 with
      | .error p => .error p
      | .ok (insts, ws2, a2) => .ok (inst :: insts, ws2, a1 ++ a2)

/-! ## Selection (spec-modelled: the file defining `pickRandomServiceInstance`
and the version resolver is not under src/) -/

structure DiscoverOptions where
  /-- the requested service name (`options.Value`) -/
  value : String
  environment : String
  /-- the requested version selector -/
  version : String
  /-- `"GATEWAY"` or `"DIRECT"` -/
  accessType : String
deriving DecidableEq, Repr

def maxSemVer : List SemVer → Option SemVer
  | [] => none
  | v :: rest =>
    match maxSemVer rest with
    | none => some v
    | some w => some (if semverLe v w then w else v)

/-- Modelled from the spec: the Version Resolver (spec 4.1), whose source
file is not under src/. "given a candidate set of parsed semantic versions
and a requested selector, return the single highest version satisfying the
selector, or no match if none qualifies; `*` always resolves to the maximum
version present". The `*` selector and an exact-version selector are
modelled; NPM-like range selectors (`^`, `~`) are not needed by the claims
settled here. -/
def resolveVersion (selector : String) (candidates : List SemVer) : Option SemVer :=
  if selector == "*" then maxSemVer candidates
  else
    match parseTolerant selector with
    | none => none
    | some v => if candidates.contains v then some v else none

/-- Modelled from the spec: `pickRandomServiceInstance` (called by both
DiscoverService variants but defined in a file not under src/). Spec 4.5
steps 5-8: resolve the selector against the parsed versions; on no match
this is a selection failure treated as fallback-then-error, so the function
hands back the caller-supplied last-known service together with an error
(its caller checks the returned service against `""` and then returns the
handle's last-known value). On a match, choose among the instances of the
resolved version (the uniform random choice is modelled by the externally
supplied index `choice`), and resolve the access type: `GATEWAY` prefers a
non-empty cached gateway URL for the resolved namespace, `DIRECT` always
returns the direct URL. -/
def pickRandomServiceInstance (choice : Nat) (instances : List discoveredService)
    (ws : List gatewayURLWatch) (options : DiscoverOptions)
    (lastKnown : String) : String × Option String :=
  match resolveVersion options.version (instances.map (fun i => i.version)) with
  | none => (lastKnown, some "no service instance found")
  | some v =>
    match instances.filter (fun i => i.version == v) with
    | [] => (lastKnown, some "no service instance found")
    | e :: es =>
      let chosen := (e :: es).getD (choice % (e :: es).length) e
      let ns := watcherNamespace options.environment options.value v
      let gw := (ws.find? (fun w => w.gatewayID == ns)).map
        (fun w => w.gatewayURL)
      if options.accessType == "GATEWAY" then
        match gw with
        | some g => if g != "" then (g, none) else (chosen.directURL, none)
        | none => (chosen.directURL, none)
      else (chosen.directURL, none)

/-! ## `consulDiscoverySource.DiscoverService` -/

/-- The handle state DiscoverService reads and writes. -/
structure DiscoverState where
  lastKnownService : String
  gatewayURLs : List gatewayURLWatch
deriving DecidableEq, Repr

/-- The method `consulDiscoverySource.DiscoverService`. The backend health query's
outcome is the `queryResult` input (`Except`: the Go `err`). On query
failure, return the last known service with a nil error when one is cached,
the error otherwise. On success, extract candidates (creating gateway
watches along the way), select via `pickRandomServiceInstance`; on a
selection error, fall back exactly as for a query failure (the code checks
the *returned* service against `""` but then returns `d.lastKnownService`);
on success overwrite the last known service with the result. -/
def consulDiscoverService (cfg : String → Option String) (choice : Nat)
    (st : DiscoverState) (options : DiscoverOptions)
    (queryResult : Except String (List ServiceEntryM)) :
    Except GoPanic ((String × Option String) × DiscoverState × List WatchAction) :=
  match queryResult with
  | .error e =>
    if st.lastKnownService != "" then .ok ((st.lastKnownService, none), st, [])
    else .ok (("", some e), st, [])
  | .ok serviceEntries =>
    match consulProcessEntries cfg options.environment options.value
        serviceEntries st.gatewayURLs with
    | .error p => .error p
    | .ok (discoveredInstances, ws1, acts) =>
      let st1 : DiscoverState :=
        { lastKnownService := st.lastKnownService, gatewayURLs := ws1 }
      match pickRandomServiceInstance choice discoveredInstances ws1 options
          st.lastKnownService with
      | (service, some e) =>
        if service != "" then .ok ((st.lastKnownService, none), st1, acts)
        else .ok (("", some e), st1, acts)
      | (service, none) =>
        .ok ((service, none),
             { st1 with lastKnownService := service }, acts)

/-! ## Discovery: candidate extraction (etcd variant)

The etcd response tree is modelled at the granularity the extraction loop
reads it: version nodes (whose key's base is the version string) each
holding the instance nodes of their `instances` child; each instance node
has a base key (the id) and child key/values. The gateway-watch creation
inside this loop is the same block as the consul one (`addGatewayWatch`)
and is not repeated here; the theorems about it cover both variants. -/

structure EtcdInstanceEntry where
  /-- `path.Base(instance.Key)` -/
  id : String
  /-- child nodes as (base key, value) -/
  kvs : List (String × String)
deriving DecidableEq, Repr

/-- The inner loop over an instance's child nodes: the last `url` child
wins; no `url` child leaves the direct URL empty. -/
def etcdInstanceURL (kvs : List (String × String)) : String :=
  kvs.foldl (fun acc kv => if kv.1 == "url" then kv.2 else acc) ""

/-- The loop over one version node's instances: the version string is
parsed per instance; on a parse failure the loop breaks out of this
version node (dropping it and its remaining instances). -/
def etcdScanInstances (currentVersion : String) :
    List EtcdInstanceEntry → List discoveredService
  | [] => []
  | instanceEntry :: rest =>
    match parseTolerant currentVersion with
    | none => []
    | some v =>
      { id := instanceEntry.id
        version := v
        directURL := etcdInstanceURL instanceEntry.kvs } ::
        etcdScanInstances currentVersion rest

/-- The outer loop over all version nodes, concatenating each version
node's surviving instances (`(versionString, instances)` pairs in response
order). -/
def etcdExtractInstances :
    List (String × List EtcdInstanceEntry) → List discoveredService
  | [] => []
  | (currentVersion, insts) :: rest =>
    etcdScanInstances currentVersion insts ++ etcdExtractInstances rest

/-! ## Theorems about the claims -/

/-- C10: calling DeregisterService on a handle on which RegisterService has
never been called dereferences a nil `serviceInstance` pointer (a panic) in
both backend variants; the constructors leave the pointer nil and only
RegisterService assigns it. -/
theorem deregister_without_register_panics
    (hc : ConsulHandle) (he : EtcdHandle)
    (h1 : hc.serviceInstance = none) (h2 : he.serviceInstance = none) :
    consulDeregisterService hc = .error .nilDereference
    ∧ etcdDeregisterService he = .error .nilDereference
    ∧ newConsulDiscoverySource.serviceInstance = none
    ∧ newEtcdDiscoverySource.serviceInstance = none := by
  refine ⟨?_, ?_, rfl, rfl⟩ <;>
    simp [consulDeregisterService, etcdDeregisterService, h1, h2]

theorem deregister_without_register_panics_witness :
    consulDeregisterService newConsulDiscoverySource = .error .nilDereference
    ∧ etcdDeregisterService newEtcdDiscoverySource = .error .nilDereference
    ∧ newConsulDiscoverySource.serviceInstance = none
    ∧ newEtcdDiscoverySource.serviceInstance = none :=
  deregister_without_register_panics newConsulDiscoverySource
    newEtcdDiscoverySource rfl rfl

/-- C7: the LastKnownGood fallback is one URL per handle, not partitioned by
service name. Concretely: a successful discovery of `service-a` stores its
URL in the handle state, and a subsequent failed discovery query for the
distinct name `service-b` on the same handle returns `service-a`'s URL with
a nil error. -/
theorem last_known_good_mixes_across_service_names :
    consulDiscoverService (fun _ => none) 0 ⟨"", []⟩
      ⟨"service-a", "dev", "*", "DIRECT"⟩
      (.ok [⟨⟨"a1", ["http", "version=1.0.0"], "10.0.0.5", 8080⟩, "10.0.0.5"⟩]) =
      .ok (("http://10.0.0.5:8080", none),
        ⟨"http://10.0.0.5:8080",
          [⟨"/environments/dev/services/service-a/1.0.0", ""⟩]⟩,
        [WatchAction.readGatewayURL "/environments/dev/services/service-a/1.0.0",
         WatchAction.subscribeGatewayURL "/environments/dev/services/service-a/1.0.0"])
    ∧ consulDiscoverService (fun _ => none) 0
        ⟨"http://10.0.0.5:8080",
          [⟨"/environments/dev/services/service-a/1.0.0", ""⟩]⟩
        ⟨"service-b", "dev", "*", "GATEWAY"⟩
        (.error "connection refused") =
      .ok (("http://10.0.0.5:8080", none),
        ⟨"http://10.0.0.5:8080",
          [⟨"/environments/dev/services/service-a/1.0.0", ""⟩]⟩,
        []) := by
  decide

/-- C6 counterexample: with a health-passing instance of the same
name/environment/version already in the catalog (registered under service
name `dev-svc` with tag `version=1.0.0`), a second RegisterService with
`singleton = true` still returns the generated identity together with a nil
error, in both variants — it does not "return no identity and propagate an
error". -/
theorem register_singleton_conflict_nil_error_cex :
    healthServiceQuery
        [⟨"dev-svc", "svc-11111111", ["http", "version=1.0.0"],
          "10.0.0.5", "10.0.0.5", 8080, true⟩] "dev-svc" ≠ []
    ∧ (consulRegisterService newConsulDiscoverySource
        ⟨"svc", "dev", "1.0.0", true⟩ "22222222").1 = ("svc-22222222", none)
    ∧ (etcdRegisterService newEtcdDiscoverySource
        ⟨"svc", "dev", "1.0.0", true⟩ "22222222").1 = ("22222222", none) := by
  decide

/-- C6 amended: RegisterService never propagates a singleton conflict to its
caller: in both variants it always returns the generated instance identity
with a nil error immediately (the registration itself, and with it the
singleton check, happens only in the detached background loop). -/
theorem register_service_always_returns_id_and_nil_error
    (hc : ConsulHandle) (he : EtcdHandle) (options : RegisterOptions)
    (uuid4 : String) :
    (consulRegisterService hc options uuid4).1 =
      (options.name ++ "-" ++ uuid4, none)
    ∧ ((consulRegisterService hc options uuid4).2).serviceInstance.isSome = true
    ∧ (etcdRegisterService he options uuid4).1 = (uuid4, none)
    ∧ ((etcdRegisterService he options uuid4).2).serviceInstance.isSome = true :=
  ⟨rfl, rfl, rfl, rfl⟩

/-- C1 counterexample: DeregisterService does not stop the loop. From the
handle produced by a successful RegisterService, DeregisterService issues
the backend deregistration (`.ok` with the instance id) and changes nothing
the loop consults, yet from the loop state after a completed registration
(`isRegistered = true`) every possible next iteration — in either variant,
whatever the attempt's outcome — still schedules a further `run` call
(`next ≠ none`), contradicting "schedules no further register or
TTL-refresh attempts". -/
theorem deregister_stops_loop_scheduling_cex :
    consulDeregisterService
        (consulRegisterService newConsulDiscoverySource
          ⟨"svc", "dev", "1.0.0", false⟩ "22222222").2 = .ok "svc-22222222"
    ∧ (consulRunStep ⟨100, 2000, 20⟩ ⟨true, 100⟩ false).next ≠ none
    ∧ (consulRunStep ⟨100, 2000, 20⟩ ⟨true, 100⟩ true).next ≠ none
    ∧ (etcdRunStep ⟨100, 2000, 20⟩ ⟨true, 100⟩ false).next ≠ none
    ∧ (etcdRunStep ⟨100, 2000, 20⟩ ⟨true, 100⟩ true).next ≠ none := by
  decide

/-- C1 amended: DeregisterService only issues the backend deregistration for
the stored instance (it mutates no state the loop reads), and the
registration/heartbeat loop of either variant schedules a further `run`
call on every iteration, whatever the state and outcome: nothing in the
code stops the loop's future scheduling. -/
theorem run_loop_always_reschedules (cfg : RunConfig) (s : LoopState)
    (ok : Bool) (i : ConsulServiceInstance) (last : String)
    (ws : List gatewayURLWatch) :
    (consulRunStep cfg s ok).next.isSome = true
    ∧ (etcdRunStep cfg s ok).next.isSome = true
    ∧ consulDeregisterService ⟨some i, last, ws⟩ = .ok i.id := by
  refine ⟨?_, ?_, rfl⟩ <;> cases ok <;> simp [consulRunStep, etcdRunStep]

/-- C2: with a health-passing instance of the same name/environment/version
already present (service name `dev-svc`, tag `version=1.0.0`), the second
instance built by RegisterService with `singleton = true` is NOT refused by
the consul `register`: `isServiceRegistered` queries the health endpoint by
the freshly generated instance id `svc-22222222` instead of the service
name, finds nothing, and the attempt succeeds, after which the loop enters
the Registered state. This exhibits the bug against the claim (and against
the function's own comment "returns true if there are any services of this
kind (env+name) registered"). -/
theorem singleton_conflict_not_refused :
    -- the conflicting healthy instance is visible under its service name:
    healthServiceQuery
        [⟨"dev-svc", "svc-11111111", ["http", "version=1.0.0"],
          "10.0.0.5", "10.0.0.5", 8080, true⟩] "dev-svc" =
      [⟨"dev-svc", "svc-11111111", ["http", "version=1.0.0"],
        "10.0.0.5", "10.0.0.5", 8080, true⟩]
    -- RegisterService builds exactly this second instance:
    ∧ ((consulRegisterService newConsulDiscoverySource
        ⟨"svc", "dev", "1.0.0", true⟩ "22222222").2).serviceInstance =
      some ⟨false, "svc-22222222", "dev-svc", "version=1.0.0", true⟩
    -- the singleton check misses the conflict:
    ∧ consulIsServiceRegistered
        [⟨"dev-svc", "svc-11111111", ["http", "version=1.0.0"],
          "10.0.0.5", "10.0.0.5", 8080, true⟩]
        ⟨false, "svc-22222222", "dev-svc", "version=1.0.0", true⟩ = false
    -- so the register attempt is not refused:
    ∧ consulRegister
        [⟨"dev-svc", "svc-11111111", ["http", "version=1.0.0"],
          "10.0.0.5", "10.0.0.5", 8080, true⟩] true
        ⟨false, "svc-22222222", "dev-svc", "version=1.0.0", true⟩ = true
    -- and the loop transitions to Registered:
    ∧ (consulRunStep ⟨100, 2000, 20⟩ ⟨false, 100⟩
        (consulRegister
          [⟨"dev-svc", "svc-11111111", ["http", "version=1.0.0"],
            "10.0.0.5", "10.0.0.5", 8080, true⟩] true
          ⟨false, "svc-22222222", "dev-svc", "version=1.0.0", true⟩)).next =
      some ⟨true, 100⟩ := by
  decide

/-- C3 counterexample: in the etcd variant, on the very first entry to the
Registered state (a successful register attempt from an unregistered
state), the loop waits a full ping interval (`sleepPing = true`) before the
next — TTL-refresh — attempt, refuting "this holds for both backend
variants". -/
theorem etcd_first_ttl_waits_ping_cex :
    (etcdRunStep ⟨100, 2000, 20⟩ ⟨false, 100⟩ true).attempt = .register
    ∧ (etcdRunStep ⟨100, 2000, 20⟩ ⟨false, 100⟩ true).next = some ⟨true, 100⟩
    ∧ (etcdRunStep ⟨100, 2000, 20⟩ ⟨false, 100⟩ true).sleepPing = true := by
  decide

/-- C3 amended: in the consul variant only, a successful register attempt
(first entry to Registered) reschedules immediately — no ping-interval wait
and no backoff sleep — and the rescheduled attempt is the TTL refresh,
while every later successful heartbeat (a successful attempt from an
already-registered state) does wait the ping interval before the next
attempt. The etcd variant always waits the ping interval. -/
theorem consul_first_ttl_immediate (cfg : RunConfig) (s s2 : LoopState)
    (ok2 : Bool) (h : s.isRegistered = false)
    (h2 : (consulRunStep cfg s true).next = some s2) :
    (consulRunStep cfg s true).attempt = .register
    ∧ (consulRunStep cfg s true).sleepPing = false
    ∧ (consulRunStep cfg s true).sleepRetryMs = none
    ∧ s2 = ⟨true, cfg.startRetryDelay⟩
    ∧ (consulRunStep cfg s2 ok2).attempt = .ttlUpdate
    ∧ (∀ s3 : LoopState, s3.isRegistered = true →
        (consulRunStep cfg s3 true).sleepPing = true) := by
  have hs2 : s2 = ⟨true, cfg.startRetryDelay⟩ := by
    simp [consulRunStep, h] at h2
    cases s2
    simp_all
  subst hs2
  refine ⟨by simp [consulRunStep, h], by simp [consulRunStep, h],
    by simp [consulRunStep, h], rfl, by cases ok2 <;> simp [consulRunStep],
    ?_⟩
  intro s3 h3
  simp [consulRunStep, h3]

theorem consul_first_ttl_immediate_witness :
    (⟨false, 100⟩ : LoopState).isRegistered = false
    ∧ (consulRunStep ⟨100, 2000, 20⟩ ⟨false, 100⟩ true).next = some ⟨true, 100⟩
    ∧ ((consulRunStep ⟨100, 2000, 20⟩ ⟨false, 100⟩ true).attempt = .register
      ∧ (consulRunStep ⟨100, 2000, 20⟩ ⟨false, 100⟩ true).sleepPing = false
      ∧ (consulRunStep ⟨100, 2000, 20⟩ ⟨false, 100⟩ true).sleepRetryMs = none
      ∧ (⟨true, 100⟩ : LoopState) = ⟨true, (100:Int)⟩
      ∧ (consulRunStep ⟨100, 2000, 20⟩ ⟨true, 100⟩ true).attempt = .ttlUpdate
      ∧ (∀ s3 : LoopState, s3.isRegistered = true →
          (consulRunStep ⟨100, 2000, 20⟩ s3 true).sleepPing = true)) :=
  ⟨rfl, by decide,
   consul_first_ttl_immediate ⟨100, 2000, 20⟩ ⟨false, 100⟩ ⟨true, 100⟩ true
     rfl (by decide)⟩

/-- The two's-complement wrap is the identity on the `int64` range. -/
theorem int64wrap_eq_self {x : Int} (h1 : -(2 ^ 63) ≤ x) (h2 : x < 2 ^ 63) :
    int64wrap x = x := by
  unfold int64wrap
  rw [Int.emod_eq_of_lt (by linarith) (by norm_num; linarith)]
  ring

/-- Within bounds that rule out `int64` overflow, one failure step of the
delay is exactly doubling clamped at the maximum. -/
theorem nextRetryDelay_eq_min {maxd d : Int} (h0 : 0 ≤ d) (h1 : d ≤ maxd)
    (h2 : maxd < 2 ^ 62) :
    nextRetryDelay maxd d = min (2 * d) maxd := by
  have hpow : (2:Int) ^ 63 = 2 * 2 ^ 62 := by norm_num
  have hw : int64wrap (d * 2) = d * 2 :=
    int64wrap_eq_self (by linarith) (by rw [hpow]; linarith)
  unfold nextRetryDelay
  rw [hw]
  simp only []
  split <;> omega

/-- The delay before the k-th consecutive failed attempt is
`min (startDelay * 2 ^ k) maxDelay` (k counted from 0). -/
theorem failDelays_formula {start maxd : Int} (h0 : 0 ≤ start)
    (h1 : start ≤ maxd) (h2 : maxd < 2 ^ 62) (k : Nat) :
    failDelays start maxd k = min (start * 2 ^ k) maxd := by
  induction k with
  | zero =>
    simp only [failDelays, pow_zero, mul_one]
    omega
  | succ k ih =>
    have hA : (0:Int) ≤ start * 2 ^ k := by positivity
    have hd0 : 0 ≤ failDelays start maxd k := by
      rw [ih]; exact le_min hA (le_trans h0 h1)
    have hd1 : failDelays start maxd k ≤ maxd := by
      rw [ih]; exact min_le_right _ _
    have hs : start * 2 ^ (k + 1) = 2 * (start * 2 ^ k) := by ring
    rw [failDelays, nextRetryDelay_eq_min hd0 hd1 h2, ih, hs]
    generalize start * 2 ^ k = A at hA ⊢
    omega

/-- C4: the retry delay sequence. In both variants a failed attempt sleeps
the current delay and reschedules with the doubled-and-clamped delay, a
successful attempt reschedules with `startRetryDelay`, and the delay
reached after k consecutive failures since the last success is
`min (startDelay * 2 ^ k) maxDelay` (so e.g. 100, 200, 400, 800, 1600,
2000, 2000, ... for start = 100 and max = 2000). The bounds rule out
`int64` overflow of the doubling. -/
theorem retry_delay_sequence (start maxd : Int) (h0 : 0 ≤ start)
    (h1 : start ≤ maxd) (h2 : maxd < 2 ^ 62) :
    (∀ k, failDelays start maxd k = min (start * 2 ^ k) maxd)
    ∧ (∀ (cfg : RunConfig) (s : LoopState),
        (consulRunStep cfg s false).sleepRetryMs = some s.retryDelay
        ∧ (consulRunStep cfg s false).next =
            some ⟨false, nextRetryDelay cfg.maxRetryDelay s.retryDelay⟩
        ∧ (consulRunStep cfg s true).next = some ⟨true, cfg.startRetryDelay⟩
        ∧ (etcdRunStep cfg s false).sleepRetryMs = some s.retryDelay
        ∧ (etcdRunStep cfg s false).next =
            some ⟨false, nextRetryDelay cfg.maxRetryDelay s.retryDelay⟩
        ∧ (etcdRunStep cfg s true).next = some ⟨true, cfg.startRetryDelay⟩) := by
  refine ⟨failDelays_formula h0 h1 h2, fun cfg s => ?_⟩
  refine ⟨rfl, rfl, rfl, rfl, rfl, rfl⟩

theorem retry_delay_sequence_witness :
    failDelays 100 2000 5 = min (100 * 2 ^ 5) 2000
    ∧ failDelays 100 2000 0 = 100
    ∧ failDelays 100 2000 1 = 200
    ∧ failDelays 100 2000 2 = 400
    ∧ failDelays 100 2000 3 = 800
    ∧ failDelays 100 2000 4 = 1600
    ∧ failDelays 100 2000 5 = 2000
    ∧ failDelays 100 2000 6 = 2000 :=
  ⟨(retry_delay_sequence 100 2000 (by norm_num) (by norm_num)
      (by norm_num)).1 5,
   by decide, by decide, by decide, by decide, by decide, by decide, by decide⟩

/-- C5: DiscoverService's fallback-then-error behaviour. If the backend
query fails, or if it succeeds but no discovered version satisfies the
requested selector (the resolution, modelled from the spec, finds no
match), the call returns the handle's last known service with a nil error
when that cached URL is non-empty, and otherwise an empty URL together with
the underlying error. -/
theorem discover_fallback_then_error (cfg : String → Option String)
    (choice : Nat) (st : DiscoverState) (options : DiscoverOptions)
    (e : String) (serviceEntries : List ServiceEntryM)
    (instances : List discoveredService) (ws1 : List gatewayURLWatch)
    (acts : List WatchAction) :
    (st.lastKnownService ≠ "" →
      consulDiscoverService cfg choice st options (.error e) =
        .ok ((st.lastKnownService, none), st, []))
    ∧ (st.lastKnownService = "" →
      consulDiscoverService cfg choice st options (.error e) =
        .ok (("", some e), st, []))
    ∧ (consulProcessEntries cfg options.environment options.value
          serviceEntries st.gatewayURLs = .ok (instances, ws1, acts) →
       resolveVersion options.version (instances.map (fun i => i.version)) =
          none →
       ((st.lastKnownService ≠ "" →
          consulDiscoverService cfg choice st options (.ok serviceEntries) =
            .ok ((st.lastKnownService, none),
              ⟨st.lastKnownService, ws1⟩, acts))
        ∧ (st.lastKnownService = "" →
          consulDiscoverService cfg choice st options (.ok serviceEntries) =
            .ok (("", some "no service instance found"), ⟨"", ws1⟩, acts)))) := by
  refine ⟨?_, ?_, ?_⟩
  · intro h
    simp [consulDiscoverService, bne_iff_ne, h]
  · intro h
    simp [consulDiscoverService, h]
  · intro hproc hres
    constructor
    · intro h
      simp [consulDiscoverService, hproc, pickRandomServiceInstance, hres,
        bne_iff_ne, h]
    · intro h
      simp [consulDiscoverService, hproc, pickRandomServiceInstance, hres, h]

theorem discover_fallback_then_error_witness :
    (("http://old:1" : String) ≠ ""
      ∧ consulDiscoverService (fun _ => none) 0 ⟨"http://old:1", []⟩
          ⟨"svc", "dev", "2.0.0", "GATEWAY"⟩ (.error "boom") =
        .ok (("http://old:1", none), ⟨"http://old:1", []⟩, []))
    ∧ consulDiscoverService (fun _ => none) 0 ⟨"", []⟩
        ⟨"svc", "dev", "2.0.0", "GATEWAY"⟩ (.error "boom") =
      .ok (("", some "boom"), ⟨"", []⟩, [])
    ∧ consulDiscoverService (fun _ => none) 0 ⟨"http://old:1", []⟩
        ⟨"svc", "dev", "2.0.0", "GATEWAY"⟩
        (.ok [⟨⟨"a1", ["http", "version=1.0.0"], "10.0.0.5", 8080⟩,
          "10.0.0.5"⟩]) =
      .ok (("http://old:1", none),
        ⟨"http://old:1", [⟨"/environments/dev/services/svc/1.0.0", ""⟩]⟩,
        [WatchAction.readGatewayURL "/environments/dev/services/svc/1.0.0",
         WatchAction.subscribeGatewayURL
           "/environments/dev/services/svc/1.0.0"]) :=
  ⟨⟨by decide,
    (discover_fallback_then_error (fun _ => none) 0 ⟨"http://old:1", []⟩
      ⟨"svc", "dev", "2.0.0", "GATEWAY"⟩ "boom" [] [] [] []).1 (by decide)⟩,
   (discover_fallback_then_error (fun _ => none) 0 ⟨"", []⟩
      ⟨"svc", "dev", "2.0.0", "GATEWAY"⟩ "boom" [] [] [] []).2.1 rfl,
   ((discover_fallback_then_error (fun _ => none) 0 ⟨"http://old:1", []⟩
      ⟨"svc", "dev", "2.0.0", "GATEWAY"⟩ "boom"
      [⟨⟨"a1", ["http", "version=1.0.0"], "10.0.0.5", 8080⟩, "10.0.0.5"⟩]
      [⟨"a1", ⟨1, 0, 0⟩, "http://10.0.0.5:8080"⟩]
      [⟨"/environments/dev/services/svc/1.0.0", ""⟩]
      [WatchAction.readGatewayURL "/environments/dev/services/svc/1.0.0",
       WatchAction.subscribeGatewayURL
         "/environments/dev/services/svc/1.0.0"]).2.2
      (by decide) (by decide)).1 (by decide)⟩

/-- A version node whose version string fails to parse contributes no
candidates in the etcd extraction. -/
theorem etcdScanInstances_eq_nil {currentVersion : String}
    (hparse : parseTolerant currentVersion = none)
    (insts : List EtcdInstanceEntry) :
    etcdScanInstances currentVersion insts = [] := by
  cases insts with
  | nil => rfl
  | cons i rest => simp [etcdScanInstances, hparse]

/-- C9: a returned record whose version tag fails to parse as a semantic
version is excluded from the candidate set and this is not fatal: removing
such a record from anywhere in the response leaves the whole extraction
(candidates, gateway watches and watch actions alike) unchanged, in the
consul variant; likewise in the etcd variant a version node whose version
fails to parse is dropped while all other version nodes still contribute
their records. -/
theorem unparseable_version_dropped_not_fatal
    (cfg : String → Option String) (environment serviceName : String)
    (ws : List gatewayURLWatch) (l1 l2 : List ServiceEntryM)
    (e : ServiceEntryM) (protocol : String)
    (hscan : consulScanTags "http" none e.service.tags = .ok (none, protocol))
    (currentVersion : String) (insts : List EtcdInstanceEntry)
    (g1 g2 : List (String × List EtcdInstanceEntry))
    (hparse : parseTolerant currentVersion = none) :
    consulProcessEntries cfg environment serviceName (l1 ++ e :: l2) ws =
      consulProcessEntries cfg environment serviceName (l1 ++ l2) ws
    ∧ etcdExtractInstances (g1 ++ (currentVersion, insts) :: g2) =
        etcdExtractInstances (g1 ++ g2) := by
  constructor
  · have hdrop : consulParseEntry e = .ok none := by
      simp [consulParseEntry, hscan]
    induction l1 generalizing ws with
    | nil => simp [consulProcessEntries, hdrop]
    | cons a l1 ih =>
      simp only [List.cons_append, consulProcessEntries]
      cases hpe : consulParseEntry a with
      | error p => rfl
      | ok o =>
        cases o with
        | none => exact ih ws
        | some i =>
          simp only [List.append_eq]
          rw [ih]
  · induction g1 with
    | nil => simp [etcdExtractInstances, etcdScanInstances_eq_nil hparse]
    | cons a g1 ih =>
      obtain ⟨av, ai⟩ := a
      simp only [List.cons_append, etcdExtractInstances, List.append_eq]
      rw [ih]

theorem unparseable_version_dropped_not_fatal_witness :
    (consulScanTags "http" none ["version=abc"] = .ok (none, "http")
      ∧ parseTolerant "abc" = none)
    ∧ (consulProcessEntries (fun _ => none) "dev" "svc"
          ([⟨⟨"a1", ["http", "version=1.0.0"], "10.0.0.5", 8080⟩, "10.0.0.5"⟩]
            ++ ⟨⟨"b1", ["version=abc"], "", 1⟩, "n"⟩ ::
              [⟨⟨"c1", ["version=2.0.0"], "", 2⟩, "10.0.0.7"⟩]) [] =
        consulProcessEntries (fun _ => none) "dev" "svc"
          ([⟨⟨"a1", ["http", "version=1.0.0"], "10.0.0.5", 8080⟩, "10.0.0.5"⟩]
            ++ [⟨⟨"c1", ["version=2.0.0"], "", 2⟩, "10.0.0.7"⟩]) []
      ∧ etcdExtractInstances
          ([("1.0.0", [⟨"i1", [("url", "http://u1")]⟩])]
            ++ ("abc", [⟨"i2", [("url", "http://u2")]⟩]) ::
              [("2.0.0", [⟨"i3", [("url", "http://u3")]⟩])]) =
        etcdExtractInstances
          ([("1.0.0", [⟨"i1", [("url", "http://u1")]⟩])]
            ++ [("2.0.0", [⟨"i3", [("url", "http://u3")]⟩])])) :=
  ⟨⟨by decide, by decide⟩,
   unparseable_version_dropped_not_fatal (fun _ => none) "dev" "svc" []
     [⟨⟨"a1", ["http", "version=1.0.0"], "10.0.0.5", 8080⟩, "10.0.0.5"⟩]
     [⟨⟨"c1", ["version=2.0.0"], "", 2⟩, "10.0.0.7"⟩]
     ⟨⟨"b1", ["version=abc"], "", 1⟩, "n"⟩ "http" (by decide)
     "abc" [⟨"i2", [("url", "http://u2")]⟩]
     [("1.0.0", [⟨"i1", [("url", "http://u1")]⟩])]
     [("2.0.0", [⟨"i3", [("url", "http://u3")]⟩])] (by decide)⟩

/-- Number of synchronous `gatewayUrl` reads performed for a namespace. -/
def readsFor (acts : List WatchAction) (ns : String) : Nat :=
  (acts.filter (fun a => a == WatchAction.readGatewayURL ns)).length

/-- Number of `gatewayUrl` change subscriptions registered for a namespace. -/
def subsFor (acts : List WatchAction) (ns : String) : Nat :=
  (acts.filter (fun a => a == WatchAction.subscribeGatewayURL ns)).length

theorem readsFor_append (a b : List WatchAction) (ns : String) :
    readsFor (a ++ b) ns = readsFor a ns + readsFor b ns := by
  simp [readsFor, List.filter_append]

theorem subsFor_append (a b : List WatchAction) (ns : String) :
    subsFor (a ++ b) ns = subsFor a ns + subsFor b ns := by
  simp [subsFor, List.filter_append]

theorem readsFor_new (ns0 ns : String) :
    readsFor [WatchAction.readGatewayURL ns0,
      WatchAction.subscribeGatewayURL ns0] ns = if ns0 = ns then 1 else 0 := by
  by_cases h : ns0 = ns <;> simp [readsFor, h]

theorem subsFor_new (ns0 ns : String) :
    subsFor [WatchAction.readGatewayURL ns0,
      WatchAction.subscribeGatewayURL ns0] ns = if ns0 = ns then 1 else 0 := by
  by_cases h : ns0 = ns <;> simp [subsFor, h]

theorem hasWatchFor_iff (ws : List gatewayURLWatch) (ns : String) :
    hasWatchFor ws ns = true ↔ ns ∈ ws.map (fun w => w.gatewayID) := by
  simp [hasWatchFor, List.any_eq_true, List.mem_map, beq_iff_eq]

theorem hasWatchFor_append (ws1 ws2 : List gatewayURLWatch) (ns : String) :
    hasWatchFor (ws1 ++ ws2) ns =
      (hasWatchFor ws1 ns || hasWatchFor ws2 ns) := by
  simp [hasWatchFor, List.any_append]

/-- C8: invariants of the gateway watch cache over one pass of the
watch-creation block (the per-instance block of DiscoverService, identical
in both variants) across any sequence of encountered namespaces. Starting
from a cache with pairwise-distinct namespace keys: the keys stay pairwise
distinct (at most one entry per (environment, service, version) triple);
the existing entries are preserved unchanged and in place, only new ones
are appended (the entry set grows monotonically, nothing is removed); a
namespace that already has an entry triggers no configuration read and no
subscription; a namespace without an entry triggers exactly one synchronous
read and exactly one subscription, however often it recurs in the
sequence. -/
theorem gateway_watch_cache_invariants (cfg : String → Option String)
    (nss : List String) (ws : List gatewayURLWatch)
    (h : (ws.map (fun w => w.gatewayID)).Nodup) :
    ((addGatewayWatchList cfg ws nss).1.map (fun w => w.gatewayID)).Nodup
    ∧ (∃ tail, (addGatewayWatchList cfg ws nss).1 = ws ++ tail)
    ∧ (∀ ns, hasWatchFor ws ns = true →
        readsFor (addGatewayWatchList cfg ws nss).2 ns = 0
        ∧ subsFor (addGatewayWatchList cfg ws nss).2 ns = 0)
    ∧ (∀ ns, hasWatchFor ws ns = false → ns ∈ nss →
        readsFor (addGatewayWatchList cfg ws nss).2 ns = 1
        ∧ subsFor (addGatewayWatchList cfg ws nss).2 ns = 1) := by
  induction nss generalizing ws with
  | nil =>
    refine ⟨h, ⟨[], by simp [addGatewayWatchList]⟩, ?_, ?_⟩
    · intro ns _
      exact ⟨rfl, rfl⟩
    · intro ns _ hmem
      simp at hmem
  | cons ns0 rest ih =>
    cases hw : hasWatchFor ws ns0 with
    | true =>
      have hstep : addGatewayWatchList cfg ws (ns0 :: rest) =
          addGatewayWatchList cfg ws rest := by
        simp [addGatewayWatchList, addGatewayWatch, hw]
      obtain ⟨n1, ⟨t, ht⟩, c3, c4⟩ := ih ws h
      rw [hstep]
      refine ⟨n1, ⟨t, ht⟩, c3, ?_⟩
      intro ns hns hmem
      rcases List.mem_cons.mp hmem with rfl | hmem2
      · rw [hns] at hw
        cases hw
      · exact c4 ns hns hmem2
    | false =>
      have hstep : addGatewayWatchList cfg ws (ns0 :: rest) =
          ((addGatewayWatchList cfg
              (ws ++ [⟨ns0, (cfg ns0).getD ""⟩]) rest).1,
           [WatchAction.readGatewayURL ns0,
            WatchAction.subscribeGatewayURL ns0] ++
             (addGatewayWatchList cfg
               (ws ++ [⟨ns0, (cfg ns0).getD ""⟩]) rest).2) := by
        simp [addGatewayWatchList, addGatewayWatch, hw]
      have hnotmem : ns0 ∉ ws.map (fun w => w.gatewayID) := by
        intro hm
        rw [← hasWatchFor_iff] at hm
        rw [hm] at hw
        cases hw
      have h1 : ((ws ++ [(⟨ns0, (cfg ns0).getD ""⟩ : gatewayURLWatch)]).map
          (fun w => w.gatewayID)).Nodup := by
        simp only [List.map_append, List.map_cons, List.map_nil]
        rw [List.nodup_append]
        refine ⟨h, List.nodup_singleton _, ?_⟩
        intro a ha hb
        simp at hb
        subst hb
        exact hnotmem ha
      obtain ⟨n1, ⟨t, ht⟩, c3, c4⟩ :=
        ih (ws ++ [⟨ns0, (cfg ns0).getD ""⟩]) h1
      rw [hstep]
      refine ⟨n1, ⟨⟨ns0, (cfg ns0).getD ""⟩ :: t,
        by rw [ht, List.append_assoc]; rfl⟩, ?_, ?_⟩
      · intro ns hns
        have hne : ns0 ≠ ns := by
          intro heq
          rw [heq, hns] at hw
          cases hw
        have hns1 : hasWatchFor (ws ++ [⟨ns0, (cfg ns0).getD ""⟩]) ns = true := by
          rw [hasWatchFor_append, hns]
          rfl
        obtain ⟨r0, s0⟩ := c3 ns hns1
        constructor
        · rw [readsFor_append, readsFor_new, if_neg hne, r0]
        · rw [subsFor_append, subsFor_new, if_neg hne, s0]
      · intro ns hns hmem
        by_cases heq : ns = ns0
        · subst heq
          have hns1 : hasWatchFor (ws ++ [⟨ns, (cfg ns).getD ""⟩]) ns = true := by
            rw [hasWatchFor_append]
            simp [hasWatchFor]
          obtain ⟨r0, s0⟩ := c3 ns hns1
          constructor
          · rw [readsFor_append, readsFor_new, if_pos rfl, r0]
          · rw [subsFor_append, subsFor_new, if_pos rfl, s0]
        · have hmem2 : ns ∈ rest := by
            rcases List.mem_cons.mp hmem with h' | h'
            · exact absurd h' heq
            · exact h'
          have hne : ns0 ≠ ns := fun h' => heq h'.symm
          have hns1 : hasWatchFor (ws ++ [⟨ns0, (cfg ns0).getD ""⟩]) ns = false := by
            rw [hasWatchFor_append, hns]
            simp [hasWatchFor, beq_iff_eq]
            exact hne
          obtain ⟨r1, s1⟩ := c4 ns hns1 hmem2
          constructor
          · rw [readsFor_append, readsFor_new, if_neg hne, r1]
          · rw [subsFor_append, subsFor_new, if_neg hne, s1]

theorem gateway_watch_cache_invariants_witness :
    (([] : List gatewayURLWatch).map (fun w => w.gatewayID)).Nodup
    ∧ (((addGatewayWatchList (fun _ => none) [] ["a", "b", "a"]).1.map
          (fun w => w.gatewayID)).Nodup
      ∧ (∃ tail, (addGatewayWatchList (fun _ => none) [] ["a", "b", "a"]).1 =
          [] ++ tail)
      ∧ (∀ ns, hasWatchFor [] ns = true →
          readsFor (addGatewayWatchList (fun _ => none) [] ["a", "b", "a"]).2
            ns = 0
          ∧ subsFor (addGatewayWatchList (fun _ => none) [] ["a", "b", "a"]).2
              ns = 0)
      ∧ (∀ ns, hasWatchFor [] ns = false → ns ∈ ["a", "b", "a"] →
          readsFor (addGatewayWatchList (fun _ => none) [] ["a", "b", "a"]).2
            ns = 1
          ∧ subsFor (addGatewayWatchList (fun _ => none) [] ["a", "b", "a"]).2
              ns = 1)) :=
  ⟨by simp, gateway_watch_cache_invariants (fun _ => none) ["a", "b", "a"] []
    (by simp)⟩

end KumuluzDiscovery
